import Mathlib

/-!
Verification of the PIG (Probability of Ignition) calculator, `src/app.py`,
against its natural-language specification.

The core of the program is a table-lookup engine built on `parse_range`
(a matcher for heterogeneous range labels such as "11 a 50", ">30", "41+"),
three resolvers (`get_base_hcfm`, `get_correction`, `get_pig`) and a
category classifier (`get_categoria_info`).  Each of these is shallowly
embedded below, translated function by function from the source:

* Python numbers are modelled as exact rationals (`ℚ`).  All rationals
  produced by the embedding are built with `mkRat` over integer
  arithmetic so that the definitions evaluate inside the kernel.
* Python strings are modelled as `String`, manipulated through
  `List Char` helpers that mirror the Python `str` methods used by the
  source (`strip`, `lower`, `replace`, `split`, `in`).
* `pandas.read_csv` results are modelled as a `DF` (a header row of
  column-name strings plus a grid of cells); the set of CSV files on
  disk is modelled as a `String → Option DF` store, `none` standing for
  `FileNotFoundError`.
* Python's `float(...)` conversion is modelled by `parseFloatL`
  (optional sign, decimal digits with at most one point, optional
  exponent). The special float spellings "inf"/"nan"/underscored digit
  groups accepted by Python do not occur in the reference tables and are
  not modelled.
-/

namespace PigConaf

/-- Whitespace as stripped by Python's `str.strip()` / `float()` (ASCII part). -/
def isWsChar (c : Char) : Bool :=
  c = ' ' ∨ c = '\t' ∨ c = '\n' ∨ c = '\r' ∨ c = '\x0b' ∨ c = '\x0c'

/-- Python `str.strip()`: drop leading and trailing whitespace. -/
def trimL (l : List Char) : List Char :=
  ((l.dropWhile isWsChar).reverse.dropWhile isWsChar).reverse

/-- Python `str.lower()` (ASCII part; the table labels are ASCII). -/
def lowerChar (c : Char) : Char :=
  if 'A' ≤ c ∧ c ≤ 'Z' then Char.ofNat (c.toNat + 32) else c

/-- Lowercase a character list. -/
def lowerL (l : List Char) : List Char := l.map lowerChar

/-- Python's substring test `pat in s`. -/
def isInfixL (pat : List Char) : List Char → Bool
  | [] => pat.isEmpty
  | c :: rest => pat.isPrefixOf (c :: rest) || isInfixL pat rest

/-- Worker for `replaceL`; the fuel is an upper bound on the number of
characters still to be scanned, so `l.length` fuel always suffices. -/
def replaceAux (pat rep : List Char) : Nat → List Char → List Char
  | 0, l => l
  | _ + 1, [] => []
  | fuel + 1, c :: rest =>
    if pat ≠ [] ∧ pat.isPrefixOf (c :: rest) then
      rep ++ replaceAux pat rep fuel ((c :: rest).drop pat.length)
    else
      c :: replaceAux pat rep fuel rest

/-- Python `str.replace(pat, rep)`: leftmost, non-overlapping, all
occurrences.  (The source only calls it with non-empty patterns.) -/
def replaceL (l pat rep : List Char) : List Char :=
  replaceAux pat rep l.length l

/-- Python `str.split(c)` for a single-character separator:
`"".split('-') = [""]`, `"-".split('-') = ["", ""]`. -/
def splitOnCharL (c : Char) : List Char → List (List Char)
  | [] => [[]]
  | d :: rest =>
    let r := splitOnCharL c rest
    if d = c then [] :: r
    else
      match r with
      | h :: t => (d :: h) :: t
      | [] => [[d]]

/-- ASCII decimal digit test. -/
def isDigitChar (c : Char) : Bool := '0' ≤ c ∧ c ≤ '9'

/-- Value of a (possibly empty) digit string, most significant first. -/
def natOfDigits (l : List Char) : Nat :=
  l.foldl (fun a c => a * 10 + (c.toNat - 48)) 0

/-- Parse the mantissa part of a Python float literal (sign already
removed): digits with at most one decimal point, at least one digit in
total.  Returns `(numerator, k)` with value `numerator / 10 ^ k`. -/
def parseMantissa (l : List Char) : Option (Nat × Nat) :=
  match splitOnCharL '.' l with
  | [ip] => if ip ≠ [] ∧ ip.all isDigitChar then some (natOfDigits ip, 0) else none
  | [ip, fp] =>
    if (ip ++ fp) ≠ [] ∧ ip.all isDigitChar ∧ fp.all isDigitChar then
      some (natOfDigits (ip ++ fp), fp.length)
    else none
  | _ => none

/-- Parse the exponent part of a Python float literal: optional sign,
then a non-empty digit string. -/
def parseExpInt (l : List Char) : Option ℤ :=
  match l with
  | '+' :: r => if r ≠ [] ∧ r.all isDigitChar then some (natOfDigits r) else none
  | '-' :: r => if r ≠ [] ∧ r.all isDigitChar then some (-(natOfDigits r : ℤ)) else none
  | _ => if l ≠ [] ∧ l.all isDigitChar then some (natOfDigits l) else none

/-- Model of Python `float(s)` on the strings occurring as table labels:
optional surrounding whitespace, optional sign, decimal mantissa,
optional `e`/`E` exponent.  `none` models `ValueError`. -/
def parseFloatL (l : List Char) : Option ℚ :=
  let t := trimL l
  let sg : ℤ × List Char :=
    match t with
    | '+' :: r => (1, r)
    | '-' :: r => (-1, r)
    | _ => (1, t)
  let body := sg.2.map (fun c => if c = 'E' then 'e' else c)
  match splitOnCharL 'e' body with
  | [m] => (parseMantissa m).map (fun p => mkRat (sg.1 * p.1) (10 ^ p.2))
  | [m, ex] =>
    match parseMantissa m, parseExpInt ex with
    | some p, some e =>
      some (if 0 ≤ e then mkRat (sg.1 * p.1 * (10 : ℤ) ^ e.toNat) (10 ^ p.2)
            else mkRat (sg.1 * p.1) (10 ^ (p.2 + e.natAbs)))
    | _, _ => none
  | _ => none

/-- The cleanup step of `parse_range` (line 152 of `src/app.py`):
`s.replace('%', '').replace(' a ', '-')`.  (Removing every `%` with
`replace('%', '')` is `List.filter`.) -/
def normalizeLabel (s : List Char) : List Char :=
  replaceL (s.filter (fun c => c ≠ '%')) " a ".data "-".data

/-- The `-` interval case of `parse_range` (lines 163-165 of
`src/app.py`) on the parts of `s.split('-')`: the first two parts parse
as the bounds of a closed interval.  (Python evaluates
`float(parts[0]) <= value <= float(parts[1])` left to right with
short-circuiting inside a `try`, so the result is `False` whenever
either bound fails to parse, exactly as here.) -/
def rangeBetween (value : ℚ) : List (List Char) → Bool
  | p0 :: p1 :: _ =>
    match parseFloatL p0, parseFloatL p1 with
    | some lo, some hi => decide (lo ≤ value ∧ value ≤ hi)
    | _, _ => false
  | _ => false

/-- The operator cases of `parse_range` (lines 154-170 of `src/app.py`),
applied to the normalised label: `>`, `+`, `<`, the `-` interval split
and the exact-value fallback, every `float` failure mapped to `False` by
the bare `except`.  (Python strips every occurrence of the operator
character with `s.replace('>', '')`; that is `List.filter` here.) -/
def parseRangeOps (value : ℚ) (s : List Char) : Bool :=
  if s.contains '>' then
    match parseFloatL (s.filter (fun c => c ≠ '>')) with
    | some t => decide (t ≤ value)
    | none => false
  else if s.contains '+' then
    match parseFloatL (s.filter (fun c => c ≠ '+')) with
    | some t => decide (t ≤ value)
    | none => false
  else if s.contains '<' then
    match parseFloatL (s.filter (fun c => c ≠ '<')) with
    | some t => decide (value < t)
    | none => false
  else if s.contains '-' then
    rangeBetween value (splitOnCharL '-' s)
  else
    match parseFloatL s with
    | some t => decide (t = value)
    | none => false

/-- `parse_range` on the stripped, lowercased label (lines 143-170):
`nan` guard, `'tod'` wildcard, then normalisation and operator cases. -/
def parseRangeCore (value : ℚ) (s : List Char) : Bool :=
  if s = "nan".data then false
  else if isInfixL "tod".data s then true
  else parseRangeOps value (normalizeLabel s)

/-- `parse_range` from `src/app.py` lines 139-170, the range-label
matcher (the `pd.isna` guard coincides with the `'nan'` string guard on
this model, since `str(nan)` is `"nan"`). -/
def parse_range (value : ℚ) (range_str : String) : Bool :=
  parseRangeCore value (lowerL (trimL range_str.data))

/-- The spec's `RangeLabel` data model (§3): the variant a label string
is classified into. -/
inductive RangeLabel
  | all
  | ge (t : ℚ)
  | lt (t : ℚ)
  | between (lo hi : ℚ)
  | exact (t : ℚ)
  deriving DecidableEq

/-- Closed-interval classification of the first two parts of a split
`-` label. -/
def classifyBetween : List (List Char) → Option RangeLabel
  | p0 :: p1 :: _ =>
    match parseFloatL p0, parseFloatL p1 with
    | some lo, some hi => some (.between lo hi)
    | _, _ => none
  | _ => none

/-- The operator precedence of the spec (§4.1, claim C1) as label
classification: a `>` or `+` label means value-at-least-threshold (the
threshold being the number left after removing the operator character),
`<` means strictly-below, `-` a closed interval between its first two
numeric parts, anything else an exact value; an unparsable label
classifies as `none` (never matches). -/
def classifyOps (s : List Char) : Option RangeLabel :=
  if s.contains '>' then (parseFloatL (s.filter (fun c => c ≠ '>'))).map .ge
  else if s.contains '+' then (parseFloatL (s.filter (fun c => c ≠ '+'))).map .ge
  else if s.contains '<' then (parseFloatL (s.filter (fun c => c ≠ '<'))).map .lt
  else if s.contains '-' then classifyBetween (splitOnCharL '-' s)
  else (parseFloatL s).map .exact

/-- Classification of a stripped, lowercased label: null/blank/"nan"
never matches, "tod" is the wildcard, the rest goes through the
normalisation and the operator cases. -/
def classifyCore (s : List Char) : Option RangeLabel :=
  if s = [] ∨ s = "nan".data then none
  else if isInfixL "tod".data s then some .all
  else classifyOps (normalizeLabel s)

/-- Classification of a raw label string per the spec wording. -/
def classify_label (range_str : String) : Option RangeLabel :=
  classifyCore (lowerL (trimL range_str.data))

/-- Semantics of a classified range label on a numeric value (spec §3). -/
def eval_label (v : ℚ) : RangeLabel → Bool
  | .all => true
  | .ge t => decide (t ≤ v)
  | .lt t => decide (v < t)
  | .between lo hi => decide (lo ≤ v ∧ v ≤ hi)
  | .exact t => decide (t = v)

/-- The range matcher as the spec describes it: classify the label, then
evaluate the variant; an unclassifiable label never matches. -/
def matchesSpec (v : ℚ) (s : String) : Bool :=
  (classify_label s).elim false (eval_label v)

/-- One cell of a loaded table.  `pandas.read_csv` parses an all-numeric
CSV column to floats and leaves the others as strings; both shapes reach
`parse_range` and the returned correction/moisture values. -/
inductive Cell
  | num (q : ℚ)
  | str (s : String)
  deriving DecidableEq

/-- A loaded DataFrame: the header row (`df.columns`) and the data grid
(`df.rows`, each row aligned with `cols`; the row labels live in the
first one or two cells of each row, as in the CSV files). -/
structure DF where
  cols : List String
  rows : List (List Cell)
  deriving DecidableEq

/-- `parse_range` applied to a DataFrame cell.  A string cell is passed
through unchanged.  For a float cell Python first renders it with
`str(...)`: a non-negative float like `5.0` reaches the exact-value
branch and matches iff it equals the value, while a negative float
renders with a leading `-`, is split on that `-` into an empty first
part, and `float('')` fails, so it never matches.  (Exponent renderings
of very large/small floats do not occur in the reference tables.) -/
def parse_range_cell (v : ℚ) (c : Cell) : Bool :=
  match c with
  | .str s => parse_range v s
  | .num q => if q < 0 then false else decide (q = v)

/-- Python `str(...)` of a cell, used only inside provenance notes.
(The exact float formatting of the notes is abstracted by `toString ℚ`;
no claim depends on the formatted digits.) -/
def cellToString (c : Cell) : String :=
  match c with
  | .num q => toString q
  | .str s => s

/-- The `FILES` dictionary of `src/app.py` lines 28-38.  Every key the
program looks up is present; a missing key would raise `KeyError` in
Python and is mapped to `""` here. -/
def FILES (k : String) : String :=
  if k = "dia" then "tabla_dia.csv"
  else if k = "noche" then "tabla_noche.csv"
  else if k = "verano_mas50" then "meses_verano_mas50.csv"
  else if k = "verano_menos50" then "meses_verano_menos50.csv"
  else if k = "oto_prim_mas50" then "meses_otonoprim_mas50.csv"
  else if k = "oto_prim_menos50" then "meses_otonoprim_menos50.csv"
  else if k = "invierno_mas50" then "meses_invierno_mas50.csv"
  else if k = "invierno_menos50" then "meses_invierno_menos50.csv"
  else if k = "pig" then "probabilidad_ignicion.csv"
  else ""

/-- The day/night table choice of `get_base_hcfm` (lines 175-177):
`is_day = 8.0 <= hour_float <= 20.0`, day file if so, else night file. -/
def base_hcfm_filename (hour_float : ℚ) : String :=
  if 8 ≤ hour_float ∧ hour_float ≤ 20 then FILES "dia" else FILES "noche"

/-- `get_base_hcfm` from `src/app.py` lines 174-203.  The store models
the CSV files on disk (`none` = `FileNotFoundError`).  The first result
component is `None`/`Some hcfm` exactly as in the source; the second is
the message.  As in the source, the first row whose column-0 label
matches `temp` and the first header after column 0 matching `rh` are
selected, the temperature miss being reported before the humidity miss. -/
def get_base_hcfm (store : String → Option DF) (temp rh hour_float : ℚ) :
    Option Cell × String :=
  let filename := base_hcfm_filename hour_float
  match store filename with
  | none => (none, "Error: No se encontró el archivo " ++ filename)
  | some df =>
    let row_idx := df.rows.findIdx? (fun r => parse_range_cell temp (r.headD (Cell.str "nan")))
    let col_j := (df.cols.drop 1).findIdx? (fun col => parse_range rh col)
    match row_idx with
    | none => (none, "La temperatura está fuera de los rangos de la tabla")
    | some i =>
      match col_j with
      | none => (none, "La humedad relativa está fuera de los rangos de la tabla")
      | some j0 =>
        let hcfm := (df.rows.getD i []).getD (j0 + 1) (Cell.str "nan")
        let periodo := if 8 ≤ hour_float ∧ hour_float ≤ 20 then "día" else "noche"
        (some hcfm,
          "Tabla " ++ periodo ++ ": Temp=" ++ toString temp ++ "°C, HR=" ++
            toString rh ++ "% → HCFM=" ++ cellToString hcfm ++ "%")

/-- Season assignment of `get_correction` (lines 210-215): months 12, 1, 2
are summer, 6, 7, 8 winter, everything else autumn/spring. -/
def estacion (month : ℤ) : String :=
  if month = 12 ∨ month = 1 ∨ month = 2 then "verano"
  else if month = 6 ∨ month = 7 ∨ month = 8 then "invierno"
  else "oto_prim"

/-- Slope-band key of `get_correction` (line 218):
`"mas50" if pendiente >= 50 else "menos50"`. -/
def pendiente_key (pendiente : ℚ) : String :=
  if 50 ≤ pendiente then "mas50" else "menos50"

/-- The correction-table file consulted by `get_correction` (line 220):
`FILES[f"{estacion}_{pendiente_key}"]`.  It is a function of the month
and the slope only. -/
def correction_filename (month : ℤ) (pendiente : ℚ) : String :=
  FILES (estacion month ++ "_" ++ pendiente_key pendiente)

/-- The `exp_map` dictionary of `get_correction` (lines 228-233), with
`.get(exposicion, [])` for unknown aspects. -/
def exp_map (exposicion : String) : List String :=
  if exposicion = "Norte" then ["N", "Norte"]
  else if exposicion = "Sur" then ["S", "Sur"]
  else if exposicion = "Este" then ["E", "Este"]
  else if exposicion = "Oeste" then ["O", "Oeste", "W", "West"]
  else []

/-- The column test of `get_correction` (lines 236-242): the header
matches if any name in `exp_map[exposicion]` occurs, case-insensitively,
as a substring of the header. -/
def matchesExposure (exposicion col : String) : Bool :=
  (exp_map exposicion).any (fun nombre => isInfixL (lowerL nombre.data) (lowerL col.data))

/-- Steps 1 and 2 of `get_correction` (lines 227-260 of `src/app.py`),
once the correction table is loaded: a missing exposure column or a
shade row miss degrades to a zero correction with a note; otherwise the
cell at (first shade-matching row, first exposure-matching column) is
returned.  (The Python message quotes the aspect between apostrophes and
formats the correction with `:+.1f`; the note text here drops the
apostrophes and renders numbers with `toString`.) -/
def get_correction_loaded (df : DF) (month : ℤ) (sombra : ℚ)
    (exposicion : String) (pendiente : ℚ) : Cell × String :=
  match df.cols.findIdx? (fun col => matchesExposure exposicion col) with
  | none => (Cell.num 0, "No se encontró columna para exposición " ++ exposicion)
  | some j =>
    match df.rows.findIdx? (fun r => parse_range_cell sombra (r.headD (Cell.str "nan"))) with
    | none => (Cell.num 0, "Sombreado " ++ toString sombra ++ "% fuera de rango de la tabla")
    | some i =>
      (((df.rows.getD i []).getD j (Cell.str "nan")),
        "Corrección estacional (" ++ estacion month ++ ", Pend " ++
          pendiente_key pendiente ++ "): Sombra=" ++ toString sombra ++
          "%, Exp=" ++ exposicion ++ " → " ++
          cellToString ((df.rows.getD i []).getD j (Cell.str "nan")) ++ "%")

/-- `get_correction` from `src/app.py` lines 205-260.  The table is
chosen by `correction_filename` (season and slope); a missing file
returns a zero correction with a note (lines 222-225); the loaded case
is `get_correction_loaded`.  `hour_float` is accepted but never used,
exactly as in the source. -/
def get_correction (store : String → Option DF) (month : ℤ) (sombra : ℚ)
    (exposicion : String) (pendiente : ℚ) (hour_float : ℚ) : Cell × String :=
  match store (correction_filename month pendiente) with
  | none => (Cell.num 0, "No se encontró " ++ correction_filename month pendiente)
  | some df => get_correction_loaded df month sombra exposicion pendiente

/-- The actual row/column selection of `get_correction` once its table
is loaded, stated independently of the store: first the exposure column
(else zero), then the first row whose column-0 shade label matches
(else zero), then that cell.  This is the amended form of claim C3. -/
def amended_correction_spec (df : DF) (month : ℤ) (sombra : ℚ)
    (exposicion : String) (pendiente : ℚ) : Cell × String :=
  match df.cols.findIdx? (fun col => matchesExposure exposicion col),
        df.rows.findIdx? (fun r => parse_range_cell sombra (r.headD (Cell.str "nan"))) with
  | none, _ => (Cell.num 0, "No se encontró columna para exposición " ++ exposicion)
  | some _, none => (Cell.num 0, "Sombreado " ++ toString sombra ++ "% fuera de rango de la tabla")
  | some j, some i =>
    let correccion := (df.rows.getD i []).getD j (Cell.str "nan")
    (correccion,
      "Corrección estacional (" ++ estacion month ++ ", Pend " ++
        pendiente_key pendiente ++ "): Sombra=" ++ toString sombra ++
        "%, Exp=" ++ exposicion ++ " → " ++ cellToString correccion ++ "%")

/-- Modelled from the spec: parse one "H:MM" (or bare "H") hour token of
a correction-table hour-window header (§4.4 of the spec; no such parsing
exists anywhere in the code). -/
def parseHourToken (l : List Char) : Option ℚ :=
  match splitOnCharL ':' l with
  | [h] => if h ≠ [] ∧ h.all isDigitChar then some (mkRat (natOfDigits h) 1) else none
  | [h, m] =>
    if h ≠ [] ∧ h.all isDigitChar ∧ m ≠ [] ∧ m.all isDigitChar then
      some (mkRat (natOfDigits h * 60 + natOfDigits m) 60)
    else none
  | _ => none

/-- Modelled from the spec: parse a header of the form "H:MM a H:MM"
into an hour window (start, end).  The " a " separator is rewritten to a
single sentinel character and split there.  Headers not of this shape
(including the spec's vaguer bare-trailing-hour form, which the
counterexample below does not rely on) yield `none`. -/
def parseHourWindow (header : String) : Option (ℚ × ℚ) :=
  let l := lowerL (trimL header.data)
  match splitOnCharL '@' (replaceL l " a ".data ['@']) with
  | [x, y] =>
    match parseHourToken (trimL x), parseHourToken (trimL y) with
    | some a, some b => some (a, b)
    | _, _ => none
  | _ => none

/-- Modelled from the spec: the correction resolver claim C3 describes —
the column is the first header whose parsed hour window contains the
hour, the row is the first one whose exposure label (cell 0) contains
the aspect code or the ALL wildcard and whose slope-range label (cell 1)
matches the slope; any miss degrades to a zero correction.  The code
contains no such logic. -/
def claim_correction_resolver (df : DF) (aspect : String) (slope : ℚ) (hour : ℚ) : Cell :=
  match df.cols.findIdx? (fun h =>
      match parseHourWindow h with
      | some w => decide (w.1 ≤ hour ∧ hour ≤ w.2)
      | none => false) with
  | none => Cell.num 0
  | some j =>
    match df.rows.findIdx? (fun r =>
        (matchesExposure aspect (cellToString (r.headD (Cell.str ""))) ||
          isInfixL "all".data (lowerL (cellToString (r.headD (Cell.str ""))).data)) &&
        parse_range_cell slope (r.getD 1 (Cell.str "nan"))) with
    | none => Cell.num 0
    | some i => (df.rows.getD i []).getD j (Cell.str "nan")

/-- Python's built-in banker's rounding `round(q)` (round half to even),
computed on the exact rational through its numerator and denominator:
`r2 = 2 * den * (q - ⌊q⌋)` is compared with `den` to place the
fractional part relative to one half. -/
def pythonRound (q : ℚ) : ℤ :=
  let f := ⌊q⌋
  let r2 := 2 * q.num - 2 * f * (q.den : ℤ)
  if r2 < (q.den : ℤ) then f
  else if (q.den : ℤ) < r2 then f + 1
  else if f % 2 = 0 then f else f + 1

/-- `get_pig` from `src/app.py` lines 268-286, once the table is
loaded.  The row is the first one whose cell-0 label matches the shade
and whose cell-1 label matches the temperature; the target column name
is `str(int(round(hcfm_final)))` clamped up to `"2"` (the
`int(str(...))` round trip of the source is the identity and is
elided); a valid column returns that cell with "OK", otherwise the last
cell of the row is returned with the extreme-humidity note. -/
def get_pig_loaded (df : DF) (hcfm_final temp shade_pct : ℚ) : Cell × String :=
  match df.rows.find? (fun row =>
      parse_range_cell shade_pct (row.headD (Cell.str "nan")) &&
      parse_range_cell temp (row.getD 1 (Cell.str "nan"))) with
  | none => (Cell.num 0, "No data PIG para Temp/Sombra")
  | some row =>
    match df.cols.findIdx? (fun c =>
        c = (if pythonRound hcfm_final < 2 then "2" else toString (pythonRound hcfm_final))) with
    | some j => (row.getD j (Cell.str "nan"), "OK")
    | none => (row.getLastD (Cell.str "nan"), "Humedad extrema (riesgo bajo)")

/-- `get_pig` composed with the table store: a missing file returns
`(0, "Falta archivo PIG")` (lines 263-266). -/
def get_pig (store : String → Option DF) (hcfm_final temp shade_pct : ℚ) :
    Cell × String :=
  match store (FILES "pig") with
  | none => (Cell.num 0, "Falta archivo PIG")
  | some df => get_pig_loaded df hcfm_final temp shade_pct

/-- The final-probability resolver as claim C6 words it: first row
matching shade (cell 0) and temperature (cell 1) through the range
matcher, else zero with the no-data note; target column
`round(finalMoisture)` rendered as an integer string and clamped up to
2; that column's cell if it exists, else the rightmost cell with the
extreme-humidity note. -/
def get_pig_spec (df : DF) (hcfm_final temp shade_pct : ℚ) : Cell × String :=
  match df.rows.find? (fun row =>
      parse_range_cell shade_pct (row.headD (Cell.str "nan")) &&
      parse_range_cell temp (row.getD 1 (Cell.str "nan"))) with
  | none => (Cell.num 0, "No data PIG para Temp/Sombra")
  | some row =>
    let h_target := toString (max 2 (pythonRound hcfm_final))
    match df.cols.findIdx? (fun c => c = h_target) with
    | some j => (row.getD j (Cell.str "nan"), "OK")
    | none => (row.getLastD (Cell.str "nan"), "Humedad extrema (riesgo bajo)")

/-- One risk category of `get_categoria_info` (lines 45-81). -/
structure Categoria where
  nombre : String
  rango : ℚ × ℚ
  color : String
  uso : String
  interpretacion : String
  deriving DecidableEq

/-- The "Bajo" category (lines 46-52). -/
def catBajo : Categoria :=
  { nombre := "Bajo", rango := (0, 20), color := "#2ECC71",
    uso := "Condición segura, monitoreo básico",
    interpretacion := "Condiciones poco favorables para que una fuente de calor genere ignición. Combustibles con mayor humedad y/o baja eficiencia de transferencia de calor." }

/-- The "Moderado" category (lines 53-59). -/
def catModerado : Categoria :=
  { nombre := "Moderado", rango := (21, 40), color := "#A9DFBF",
    uso := "Atención preventiva",
    interpretacion := "Existe posibilidad de ignición ante fuentes eficientes (chispas, brasas), pero no es esperable una ignición generalizada. Riesgo controlable con medidas básicas." }

/-- The "Alto" category (lines 60-66). -/
def catAlto : Categoria :=
  { nombre := "Alto", rango := (41, 60), color := "#F4D03F",
    uso := "Riesgo activo, medidas preventivas",
    interpretacion := "Condiciones favorables para ignición. La mayoría de las fuentes de calor pueden generar fuego. Requiere restricciones parciales y aumento de vigilancia." }

/-- The "Muy Alto" category (lines 67-73). -/
def catMuyAlto : Categoria :=
  { nombre := "Muy Alto", rango := (61, 80), color := "#E67E22",
    uso := "Restricciones y vigilancia reforzada",
    interpretacion := "Alta eficiencia de ignición. Combustibles finos altamente receptivos. Alta probabilidad de inicio de incendios ante actividades humanas comunes." }

/-- The "Extremo" category (lines 74-80). -/
def catExtremo : Categoria :=
  { nombre := "Extremo", rango := (81, 100), color := "#C0392B",
    uso := "Condición crítica, prohibiciones y alerta",
    interpretacion := "Ignición casi segura ante cualquier fuente. Combustibles críticos, baja humedad y alta continuidad. Condiciones asociadas a incendios de rápida propagación." }

/-- The `categorias` list of `get_categoria_info` (lines 45-81). -/
def categorias : List Categoria :=
  [catBajo, catModerado, catAlto, catMuyAlto, catExtremo]

/-- `get_categoria_info` from `src/app.py` lines 41-88: the first
category whose closed range contains the value, else `categorias[0]`
for a negative value and `categorias[-1]` otherwise. -/
def get_categoria_info (pig_value : ℚ) : Categoria :=
  match categorias.find? (fun cat => decide (cat.rango.1 ≤ pig_value ∧ pig_value ≤ cat.rango.2)) with
  | some cat => cat
  | none => if pig_value < 0 then catBajo else catExtremo

/-! Concrete tables and stores used as witnesses and counterexamples. -/

/-- A tiny summer low-slope correction table whose data cell is 1. -/
def dfLowW : DF := ⟨["Sombra", "N"], [[Cell.str "0-100", Cell.num 1]]⟩

/-- A tiny summer high-slope correction table whose data cell is 2. -/
def dfHighW : DF := ⟨["Sombra", "N"], [[Cell.str "0-100", Cell.num 2]]⟩

/-- A store holding distinguishable low-slope and high-slope summer
correction tables. -/
def c2Store : String → Option DF := fun n =>
  if n = "meses_verano_menos50.csv" then some dfLowW
  else if n = "meses_verano_mas50.csv" then some dfHighW else none

/-- A correction table shaped as claim C3 describes one: exposure and
slope label columns followed by hour-window columns. -/
def dfC3 : DF :=
  ⟨["Exposicion", "Pendiente", "8:00 a 13:59", "14:00 a 20:59"],
    [[Cell.str "N", Cell.str "0-100", Cell.num 5, Cell.num 7]]⟩

/-- A store holding `dfC3` as the summer low-slope correction table. -/
def c3Store : String → Option DF := fun n =>
  if n = "meses_verano_menos50.csv" then some dfC3 else none

/-- A tiny final-probability table: shade label, temperature label and
the humidity columns "2" and "5". -/
def dfPigW : DF :=
  ⟨["s", "t", "2", "5"], [[Cell.str "0-100", Cell.str "0-50", Cell.num 30, Cell.num 10]]⟩

/-- A store holding `dfPigW` as the final-probability table. -/
def pigStoreW : String → Option DF := fun n =>
  if n = "probabilidad_ignicion.csv" then some dfPigW else none

/-! Helper lemmas shared by the claim theorems. -/

/-- The range matcher of the code and the classify-then-evaluate matcher
of the spec agree on every value and label. -/
theorem range_between_eq_spec (v : ℚ) (parts : List (List Char)) :
    rangeBetween v parts = (classifyBetween parts).elim false (eval_label v) := by
  rcases parts with _ | ⟨p0, _ | ⟨p1, rest⟩⟩
  · rfl
  · rfl
  · rw [rangeBetween, classifyBetween]
    cases hp0 : parseFloatL p0 <;> cases hp1 : parseFloatL p1 <;> rfl

theorem parse_range_ops_eq_spec (v : ℚ) (u : List Char) :
    parseRangeOps v u = (classifyOps u).elim false (eval_label v) := by
  rw [parseRangeOps, classifyOps]
  cases hgt : u.contains '>'
  · cases hpl : u.contains '+'
    · cases hlt : u.contains '<'
      · cases hmn : u.contains '-'
        · cases hp : parseFloatL u <;> rfl
        · exact range_between_eq_spec v (splitOnCharL '-' u)
      · cases hp : parseFloatL (u.filter (fun c => c ≠ '<')) <;> rfl
    · cases hp : parseFloatL (u.filter (fun c => c ≠ '+')) <;> rfl
  · cases hp : parseFloatL (u.filter (fun c => c ≠ '>')) <;> rfl

theorem parse_range_eq_spec (v : ℚ) (s : String) : parse_range v s = matchesSpec v s := by
  rw [parse_range, matchesSpec, classify_label, parseRangeCore, classifyCore]
  generalize lowerL (trimL s.data) = t
  by_cases hnan : t = "nan".data
  · rw [if_pos hnan, if_pos (Or.inr hnan)]
    rfl
  · by_cases hnil : t = []
    · subst hnil
      rw [if_neg hnan, if_pos (Or.inl rfl)]
      rfl
    · rw [if_neg hnan, if_neg (not_or.mpr ⟨hnil, hnan⟩)]
      cases htod : isInfixL "tod".data t
      · rw [if_neg (by simp [htod]), if_neg (by simp [htod])]
        exact parse_range_ops_eq_spec v (normalizeLabel t)
      · rw [if_pos (by simp [htod]), if_pos (by simp [htod])]
        rfl

/-- `get_categoria_info` as an explicit case split: each closed band maps
to its own category, negatives to the lowest, and everything else (the
inter-band gaps and values above 100) to the highest. -/
theorem categoria_info_eq_ite (p : ℚ) :
    get_categoria_info p =
      if 0 ≤ p ∧ p ≤ 20 then catBajo
      else if 21 ≤ p ∧ p ≤ 40 then catModerado
      else if 41 ≤ p ∧ p ≤ 60 then catAlto
      else if 61 ≤ p ∧ p ≤ 80 then catMuyAlto
      else if 81 ≤ p ∧ p ≤ 100 then catExtremo
      else if p < 0 then catBajo else catExtremo := by
  rw [get_categoria_info]
  by_cases h1 : (0:ℚ) ≤ p ∧ p ≤ 20
  · rw [if_pos h1]
    simp [categorias, List.find?, catBajo, h1]
  · rw [if_neg h1]
    by_cases h2 : (21:ℚ) ≤ p ∧ p ≤ 40
    · rw [if_pos h2]
      simp [categorias, List.find?, catBajo, catModerado, h1, h2]
    · rw [if_neg h2]
      by_cases h3 : (41:ℚ) ≤ p ∧ p ≤ 60
      · rw [if_pos h3]
        simp [categorias, List.find?, catBajo, catModerado, catAlto, h1, h2, h3]
      · rw [if_neg h3]
        by_cases h4 : (61:ℚ) ≤ p ∧ p ≤ 80
        · rw [if_pos h4]
          simp [categorias, List.find?, catBajo, catModerado, catAlto, catMuyAlto, h1, h2, h3, h4]
        · rw [if_neg h4]
          by_cases h5 : (81:ℚ) ≤ p ∧ p ≤ 100
          · rw [if_pos h5]
            simp [categorias, List.find?, catBajo, catModerado, catAlto, catMuyAlto, catExtremo,
              h1, h2, h3, h4, h5]
          · rw [if_neg h5]
            by_cases h6 : p < 0
            · rw [if_pos h6]
              simp [categorias, List.find?, catBajo, catModerado, catAlto, catMuyAlto, catExtremo,
                h1, h2, h3, h4, h5, h6]
            · rw [if_neg h6]
              simp [categorias, List.find?, catBajo, catModerado, catAlto, catMuyAlto, catExtremo,
                h1, h2, h3, h4, h5, h6]

/-- Once the correction table is loaded, `get_correction` computes
exactly the amended row/column selection. -/
theorem get_correction_loaded_eq_amended (df : DF) (month : ℤ) (sombra : ℚ)
    (exposicion : String) (pendiente : ℚ) :
    get_correction_loaded df month sombra exposicion pendiente =
      amended_correction_spec df month sombra exposicion pendiente := by
  rw [get_correction_loaded, amended_correction_spec]
  cases hc : df.cols.findIdx? (fun col => matchesExposure exposicion col) with
  | none =>
    cases hr : df.rows.findIdx? (fun r => parse_range_cell sombra (r.headD (Cell.str "nan"))) with
    | none => rfl
    | some i => rfl
  | some j =>
    cases hr : df.rows.findIdx? (fun r => parse_range_cell sombra (r.headD (Cell.str "nan"))) with
    | none => rfl
    | some i => rfl

/-- The clamped target column name of `get_pig` is the rendering of
`max 2 (round hcfm)`. -/
theorem h_target_eq_max (n : ℤ) :
    (if n < 2 then "2" else toString n) = toString (max 2 n) := by
  by_cases hn : n < 2
  · rw [if_pos hn, max_eq_left (by omega)]
    decide
  · rw [if_neg hn, max_eq_right (by omega)]

/-- Once the table is loaded, `get_pig` computes exactly the
claim-side final-probability resolver. -/
theorem get_pig_loaded_eq_spec (df : DF) (hcfm_final temp shade_pct : ℚ) :
    get_pig_loaded df hcfm_final temp shade_pct = get_pig_spec df hcfm_final temp shade_pct := by
  rw [get_pig_loaded, get_pig_spec, h_target_eq_max]

/-! The claims. -/

/-- Claim C1: for every numeric value and label string, the range
matcher applies the fixed precedence null/blank/"nan" → false, "tod" →
true, then (after stripping `%` and turning " a " into "-") the `>`,
`+`, `<`, interval and exact-value cases, first match winning — i.e. it
coincides with the classify-then-evaluate matcher written from the
spec wording. -/
theorem range_matcher_precedence :
    ∀ (v : ℚ) (s : String), parse_range v s = matchesSpec v s :=
  parse_range_eq_spec

/-- Claim C2 counterexample: with distinguishable low/high summer
tables in the store, shade 100 with slope 0 still reads the low table
(value 1), while shade 0 with slope 50 reads the high table (value 2).
The table is therefore selected by the slope, not by the shade, and
slope 50 already selects the high table — refuting both the claimed
shade>50 band and the claimed slope-independence. -/
theorem correction_table_by_slope_cex :
    (get_correction c2Store 1 100 "Norte" 0 12).1 = Cell.num 1 ∧
      (get_correction c2Store 1 0 "Norte" 50 12).1 = Cell.num 2 := by
  constructor <;> rfl

/-- Claim C2 amended: the correction table is selected by the composite
key season × slope-band, where the slope-band is "mas50" exactly when
`slopePercent >= 50` (so slope 50 selects the high-slope table), and
neither the shade nor any other input influences which table is read:
`get_correction` depends on the store only through the file named by
`correction_filename month pendiente`. -/
theorem correction_table_selection :
    (∀ (month : ℤ) (pendiente : ℚ),
        correction_filename month pendiente =
          (if month = 12 ∨ month = 1 ∨ month = 2 then "meses_verano"
            else if month = 6 ∨ month = 7 ∨ month = 8 then "meses_invierno"
            else "meses_otonoprim") ++
            (if 50 ≤ pendiente then "_mas50.csv" else "_menos50.csv")) ∧
      (∀ (store store' : String → Option DF) (month : ℤ) (sombra : ℚ)
          (exposicion : String) (pendiente hour : ℚ),
        store (correction_filename month pendiente) =
            store' (correction_filename month pendiente) →
          get_correction store month sombra exposicion pendiente hour =
            get_correction store' month sombra exposicion pendiente hour) := by
  constructor
  · intro month pendiente
    by_cases h1 : month = 12 ∨ month = 1 ∨ month = 2
    · by_cases h2 : (50:ℚ) ≤ pendiente <;>
        simp [correction_filename, estacion, pendiente_key, FILES, h1, h2]
    · by_cases h3 : month = 6 ∨ month = 7 ∨ month = 8
      · by_cases h2 : (50:ℚ) ≤ pendiente <;>
          simp [correction_filename, estacion, pendiente_key, FILES, h1, h3, h2]
      · by_cases h2 : (50:ℚ) ≤ pendiente <;>
          simp [correction_filename, estacion, pendiente_key, FILES, h1, h3, h2]
  · intro store store' month sombra exposicion pendiente hour h
    rw [get_correction, get_correction, h]

/-- Witness for the amended claim C2 at a concrete store and inputs. -/
theorem correction_table_selection_witness :
    get_correction c2Store 1 0 "Norte" 0 12 = get_correction c2Store 1 0 "Norte" 0 12 :=
  correction_table_selection.2 c2Store c2Store 1 0 "Norte" 0 12 rfl

/-- Claim C3 counterexample: on a table shaped exactly as the claim
describes (exposure and slope label columns followed by "H:MM a H:MM"
hour-window columns), the claimed resolver would select the 14:00-20:59
column and the N/0-100 row at hour 15 and return 7, but the code
returns a zero correction — it matches the aspect against the column
headers (finding "Exposicion", which contains "n") and the shade
against the rows, and parses no hour window anywhere. -/
theorem correction_hour_claim_cex :
    (get_correction c3Store 1 0 "Norte" 0 15).1 = Cell.num 0 ∧
      claim_correction_resolver dfC3 "Norte" 0 15 = Cell.num 7 := by
  constructor <;> rfl

/-- Claim C3 amended: once the correction table is loaded, the column is
the first header containing the aspect code (case-insensitive substring
over all headers, hour never consulted), the row is the first one whose
column-0 shade-range label matches the shade percent via the range
matcher, a missing column or row degrades to a zero correction, and
otherwise the selected cell is returned. -/
theorem correction_row_col_selection :
    ∀ (store : String → Option DF) (df : DF) (month : ℤ) (sombra : ℚ)
      (exposicion : String) (pendiente hour : ℚ),
      store (correction_filename month pendiente) = some df →
        get_correction store month sombra exposicion pendiente hour =
          amended_correction_spec df month sombra exposicion pendiente := by
  intro store df month sombra exposicion pendiente hour h
  rw [get_correction, h]
  exact get_correction_loaded_eq_amended df month sombra exposicion pendiente

/-- Witness for the amended claim C3 at a concrete store and inputs. -/
theorem correction_row_col_selection_witness :
    get_correction c3Store 1 0 "Norte" 0 15 = amended_correction_spec dfC3 1 0 "Norte" 0 :=
  correction_row_col_selection c3Store dfC3 1 0 "Norte" 0 15 rfl

/-- Claim C4 counterexample: with no table files present the resolver
does not fail — it returns the same degraded shape as a row or column
miss, a zero correction together with a note naming the missing file. -/
theorem missing_correction_table_cex :
    get_correction (fun _ => none) 7 30 "Sur" 10 15 =
      (Cell.num 0, "No se encontró meses_invierno_menos50.csv") := by
  rfl

/-- Claim C4 amended: when the correction table selected by the
season/slope key is absent from the store, `get_correction` degrades to
a zero correction with a note naming the missing file, exactly like the
row/column misses, rather than failing the request. -/
theorem missing_correction_table_degrades :
    ∀ (store : String → Option DF) (month : ℤ) (sombra : ℚ)
      (exposicion : String) (pendiente hour : ℚ),
      store (correction_filename month pendiente) = none →
        get_correction store month sombra exposicion pendiente hour =
          (Cell.num 0, "No se encontró " ++ correction_filename month pendiente) := by
  intro store month sombra exposicion pendiente hour h
  rw [get_correction, h]

/-- Witness for the amended claim C4 on the empty store. -/
theorem missing_correction_table_degrades_witness :
    get_correction (fun _ => none) 1 0 "Norte" 0 12 =
      (Cell.num 0, "No se encontró meses_verano_menos50.csv") :=
  (missing_correction_table_degrades (fun _ => none) 1 0 "Norte" 0 12 rfl).trans (by rfl)

/-- Claim C5: the classifier is total into the five fixed categories,
maps every value lying in one of the five closed bands to that band
(the bands being non-overlapping, this is the unique one), clamps every
negative value to the lowest band and every value above 100 to the
highest, and satisfies the six pinned examples. -/
theorem classifier_bands :
    (∀ p : ℚ, get_categoria_info p ∈ categorias) ∧
      (∀ p : ℚ, ∀ c, c ∈ categorias → c.rango.1 ≤ p → p ≤ c.rango.2 →
        get_categoria_info p = c) ∧
      (∀ p : ℚ, p < 0 → get_categoria_info p = catBajo) ∧
      (∀ p : ℚ, 100 < p → get_categoria_info p = catExtremo) ∧
      get_categoria_info 0 = catBajo ∧ get_categoria_info 20 = catBajo ∧
      get_categoria_info 21 = catModerado ∧ get_categoria_info 100 = catExtremo ∧
      get_categoria_info (-5) = catBajo ∧ get_categoria_info 150 = catExtremo := by
  refine ⟨?_, ?_, ?_, ?_, ?_, ?_, ?_, ?_, ?_, ?_⟩
  · intro p
    rw [categoria_info_eq_ite p]
    split
    · exact List.mem_cons_self _ _
    · split
      · simp [categorias]
      · split
        · simp [categorias]
        · split
          · simp [categorias]
          · split
            · simp [categorias]
            · split
              · exact List.mem_cons_self _ _
              · simp [categorias]
  · intro p c hc h1 h2
    rw [categoria_info_eq_ite p]
    have hc5 : c = catBajo ∨ c = catModerado ∨ c = catAlto ∨ c = catMuyAlto ∨ c = catExtremo := by
      simpa [categorias] using hc
    rcases hc5 with rfl | rfl | rfl | rfl | rfl
    · rw [if_pos ⟨h1, h2⟩]
    · simp only [catModerado] at h1 h2
      rw [if_neg (by rintro ⟨-, h⟩; linarith), if_pos ⟨h1, h2⟩]
    · simp only [catAlto] at h1 h2
      rw [if_neg (by rintro ⟨-, h⟩; linarith), if_neg (by rintro ⟨-, h⟩; linarith),
        if_pos ⟨h1, h2⟩]
    · simp only [catMuyAlto] at h1 h2
      rw [if_neg (by rintro ⟨-, h⟩; linarith), if_neg (by rintro ⟨-, h⟩; linarith),
        if_neg (by rintro ⟨-, h⟩; linarith), if_pos ⟨h1, h2⟩]
    · simp only [catExtremo] at h1 h2
      rw [if_neg (by rintro ⟨-, h⟩; linarith), if_neg (by rintro ⟨-, h⟩; linarith),
        if_neg (by rintro ⟨-, h⟩; linarith), if_neg (by rintro ⟨-, h⟩; linarith),
        if_pos ⟨h1, h2⟩]
  · intro p hp
    rw [categoria_info_eq_ite p]
    rw [if_neg (by rintro ⟨h, -⟩; linarith), if_neg (by rintro ⟨h, -⟩; linarith),
      if_neg (by rintro ⟨h, -⟩; linarith), if_neg (by rintro ⟨h, -⟩; linarith),
      if_neg (by rintro ⟨h, -⟩; linarith), if_pos hp]
  · intro p hp
    rw [categoria_info_eq_ite p]
    rw [if_neg (by rintro ⟨-, h⟩; linarith), if_neg (by rintro ⟨-, h⟩; linarith),
      if_neg (by rintro ⟨-, h⟩; linarith), if_neg (by rintro ⟨-, h⟩; linarith),
      if_neg (by rintro ⟨-, h⟩; linarith), if_neg (by linarith)]
  · rw [categoria_info_eq_ite]; norm_num
  · rw [categoria_info_eq_ite]; norm_num
  · rw [categoria_info_eq_ite]; norm_num
  · rw [categoria_info_eq_ite]; norm_num
  · rw [categoria_info_eq_ite]; norm_num
  · rw [categoria_info_eq_ite]; norm_num

/-- Witness for claim C5: the in-band clause at 50 (the "Alto" band) and
the two clamp clauses at concrete out-of-range values. -/
theorem classifier_bands_witness :
    get_categoria_info 50 = catAlto ∧ get_categoria_info (-7) = catBajo ∧
      get_categoria_info 123 = catExtremo :=
  ⟨classifier_bands.2.1 50 catAlto (by simp [categorias]) (by norm_num [catAlto]) (by norm_num [catAlto]),
    classifier_bands.2.2.1 (-7) (by norm_num),
    classifier_bands.2.2.2.1 123 (by norm_num)⟩

/-- Claim C6: given the loaded final-probability table, `get_pig`
returns the cell at the first row whose column-0 label matches the
shade and column-1 label matches the temperature (zero with the
no-data note when no row matches), in the column named by
`round(finalMoisture)` clamped up to "2", falling back to the rightmost
cell with the extreme-humidity note when that column is absent. -/
theorem pig_resolver_spec :
    ∀ (store : String → Option DF) (df : DF) (hcfm_final temp shade_pct : ℚ),
      store "probabilidad_ignicion.csv" = some df →
        get_pig store hcfm_final temp shade_pct = get_pig_spec df hcfm_final temp shade_pct := by
  intro store df hcfm_final temp shade_pct h
  rw [get_pig, show FILES "pig" = "probabilidad_ignicion.csv" from rfl, h]
  exact get_pig_loaded_eq_spec df hcfm_final temp shade_pct

/-- Witness for claim C6 on a concrete store and inputs. -/
theorem pig_resolver_spec_witness :
    get_pig pigStoreW 5 25 50 = get_pig_spec dfPigW 5 25 50 :=
  pig_resolver_spec pigStoreW dfPigW 5 25 50 rfl

/-- Claim C7: the range matcher is total (a Lean function into `Bool`),
an unclassifiable label — any parse failure at any step — yields
`false`, and in particular "garbage" never matches. -/
theorem range_matcher_total :
    (∀ x : ℚ, parse_range x "garbage" = false) ∧
      (∀ (x : ℚ) (s : String), classify_label s = none → parse_range x s = false) := by
  constructor
  · intro x
    rw [parse_range_eq_spec, matchesSpec]
    rfl
  · intro x s h
    rw [parse_range_eq_spec, matchesSpec, h]
    rfl

/-- Witness for claim C7: an unparsable label, concretely. -/
theorem range_matcher_total_witness : parse_range 3 "abc" = false :=
  range_matcher_total.2 3 "abc" (by rfl)

/-- Claim C8: the base-moisture resolver routes to the day table exactly
when `8.0 <= hour <= 20.0` (both ends inclusive) and to the night table
otherwise; its whole result depends on the hour only through that
window test; and the four pinned boundary hours route as claimed. -/
theorem day_night_routing :
    (∀ (store : String → Option DF) (t rh h h' : ℚ),
        ((8 ≤ h ∧ h ≤ 20) ↔ (8 ≤ h' ∧ h' ≤ 20)) →
          get_base_hcfm store t rh h = get_base_hcfm store t rh h') ∧
      (∀ h : ℚ, base_hcfm_filename h =
        if 8 ≤ h ∧ h ≤ 20 then "tabla_dia.csv" else "tabla_noche.csv") ∧
      base_hcfm_filename 8 = "tabla_dia.csv" ∧
      base_hcfm_filename 20 = "tabla_dia.csv" ∧
      base_hcfm_filename (mkRat 2001 100) = "tabla_noche.csv" ∧
      base_hcfm_filename (mkRat 799 100) = "tabla_noche.csv" := by
  refine ⟨?_, ?_, by rfl, by rfl, by rfl, by rfl⟩
  · intro store t rh h h' hiff
    simp only [get_base_hcfm, base_hcfm_filename, hiff]
  · intro h
    rw [base_hcfm_filename]
    split <;> rfl

/-- Witness for claim C8: two day-window hours give identical results on
a concrete store. -/
theorem day_night_routing_witness :
    get_base_hcfm (fun _ => none) 25 30 9 = get_base_hcfm (fun _ => none) 25 30 14 :=
  day_night_routing.1 (fun _ => none) 25 30 9 14 (by norm_num)

/-- Claim C9 counterexample: the `>` boundary is not strict — the label
">20" matches the value 20, because line 156 of the source tests
`value >= float(...)`. -/
theorem gt_label_boundary_cex :
    ¬ (parse_range 30 ">20" = true ∧ parse_range 20 ">20" = false) := by
  decide

/-- Claim C9 amended: on the boundary of a `>` label the matcher is
inclusive: both 30 and 20 match ">20". -/
theorem gt_label_inclusive :
    parse_range 30 ">20" = true ∧ parse_range 20 ">20" = true := by
  constructor <;> rfl

/-- Claim C10: the correction resolver ignores the hour entirely — for
any two hours and identical remaining inputs it returns the same value
and note. -/
theorem correction_hour_invariance :
    ∀ (store : String → Option DF) (month : ℤ) (sombra : ℚ) (exposicion : String)
      (pendiente h1 h2 : ℚ),
      get_correction store month sombra exposicion pendiente h1 =
        get_correction store month sombra exposicion pendiente h2 := by
  intro store month sombra exposicion pendiente h1 h2
  rfl

end PigConaf

